import Mathlib

/-!
Verification development for the C declaration compiler in `cffi/cparser.py`.

The embedding models the `Parser` class as explicit state passing:

* `St` holds the mutable instance state: `_declarations` (the Declaration
  Table, an insertion-ordered map from qualified name to type),
  `_anonymous_counter`, `_structnode2type` (the Aggregate Identity Cache,
  keyed by syntax-tree node identity), and `heap`, an arena of allocated
  `StructType` / `UnionType` / `EnumType` objects.  The arena makes Python
  object identity observable: `CType.structRef i` and `CType.enumRef i`
  denote the object stored at arena index `i`, and mutation of an object
  (setting a field list) is an update of the arena slot.
* Python exceptions are modelled by `Except Err`; an exception propagates
  while keeping all state mutations performed so far, exactly as in Python,
  so every function returns `Except Err α × St`.
* The recursive resolver takes a fuel argument purely to make the Lean
  functions total; `Err.fuelOut` marks exhaustion.  The helper functions
  (`fields_loop`, `get_struct_or_union`, `parse_function_type`, ...) take
  the resolver for the next lower fuel level as an explicit argument `gt`.
* The syntax tree (`TypeNode`, `FieldNode`, `ExprNode`, `ExtDecl`) mirrors
  the pycparser node shapes that `cparser.py` inspects; node identity of
  struct/union nodes is modelled by an explicit `nid : Nat` tag.
-/

/-- Python exceptions raised by the parser: `api.FFIError`, `api.CDefError`,
plus the untyped runtime errors `NameError` (from the bare `xxxx` at line 248),
`AssertionError`, `AttributeError`, `TypeError` and `IndexError`.
`fuelOut` is the embedding's fuel-exhaustion marker. -/
inductive Err where
  | ffiError (msg : String)
  | cdefError (msg : String)
  | nameError (msg : String)
  | assertError (msg : String)
  | attrError (msg : String)
  | typeError (msg : String)
  | indexError (msg : String)
  | fuelOut

/-- Type-graph nodes of `model.py` as used by `cparser.py`.  `structRef i`
stands for the `StructType`/`UnionType` object at arena index `i`;
`enumRef i` for the `EnumType` object at arena index `i`. -/
inductive CType where
  | void
  | primitive (name : String)
  | pointer (pointee : CType)
  | array (item : CType) (length : Option Int)
  | function (args : List CType) (result : CType) (ellipsis : Bool)
  | structRef (i : Nat)
  | enumRef (i : Nat)

/-- Arena objects: a `StructType`/`UnionType` (kind is the string `"struct"` or
`"union"`; `fldnames`, `fldtypes`, `fldbitsize` start as `None` and are set
together at lines 259-261), or an `EnumType` (constructed fully formed). -/
inductive Obj where
  | structObj (kind : String) (name : String)
      (fldnames : Option (List (Option String)))
      (fldtypes : Option (List CType))
      (fldbitsize : Option (List Int))
  | enumObj (ename : Option String) (enumerators : List String)
      (enumvalues : List Int)

/-- The mutable state of one `Parser` instance plus the object arena. -/
structure St where
  declarations : List (String × CType)
  anonymous_counter : Nat
  structnode2type : List (Nat × CType)
  heap : List Obj

/-- `Parser.__init__`: empty table, counter 0, empty cache (and empty arena). -/
def init_state : St :=
  { declarations := [], anonymous_counter := 0, structnode2type := [], heap := [] }

/-- Constant-expression nodes: `pycparser.c_ast.Constant` (with its integer
value already read off the token) and `pycparser.c_ast.UnaryOp`. -/
inductive ExprNode where
  | constant (value : Int)
  | unaryOp (op : String) (expr : ExprNode)
  | otherExpr

/-- One enumerator of an enum body: `enum.name` and optional `enum.value`. -/
structure EnumeratorNode where
  name : String
  value : Option ExprNode

mutual
/-- Syntax-tree type nodes, one constructor per pycparser node kind that
`cparser.py` dispatches on.  `structNode`/`unionNode` carry an identity tag
`nid` modelling Python object identity (the key of `_structnode2type`).
`funcDecl` stores the `.type` of each entry of `args.params`. -/
inductive TypeNode where
  | typeDecl (declname : Option String) (inner : TypeNode)
  | identifierType (names : List String)
  | structNode (nid : Nat) (sname : Option String) (sdecls : Option (List FieldNode))
  | unionNode (nid : Nat) (sname : Option String) (sdecls : Option (List FieldNode))
  | enumNode (ename : Option String) (values : Option (List EnumeratorNode))
  | ptrDecl (inner : TypeNode)
  | arrayDecl (inner : TypeNode) (dim : Option ExprNode)
  | funcDecl (params : List TypeNode) (ret : TypeNode)
  | otherNode

/-- A field declaration inside a struct/union body: `decl.name`, `decl.type`,
`decl.bitsize`. -/
inductive FieldNode where
  | mk (fname : Option String) (ftype : TypeNode) (fbitsize : Option ExprNode)
end

/-- Top-level entries of `ast.ext`: `c_ast.Decl`, `c_ast.Typedef`, or anything
else (the `unrecognized construct` case). -/
inductive ExtDecl where
  | decl (dname : Option String) (dtype : TypeNode)
  | typedefDecl (tname : Option String) (ttype : TypeNode)
  | otherDecl

/-- Lookup in an insertion-ordered association list (Python `dict` read). -/
def alookup {κ α : Type} [DecidableEq κ] : List (κ × α) → κ → Option α
  | [], _ => none
  | (k1, v1) :: rest, k => if k1 = k then some v1 else alookup rest k

/-- Python `dict` assignment `d[k] = v`: replaces in place if the key is
present (keeping its position), else appends. -/
def ainsert {κ α : Type} [DecidableEq κ] : List (κ × α) → κ → α → List (κ × α)
  | [], k, v => [(k, v)]
  | (k1, v1) :: rest, k, v =>
    if k1 = k then (k1, v) :: rest else (k1, v1) :: ainsert rest k v

/-- Python `'%s' % x` for an optional string: `None` prints as `"None"`. -/
def pyFmt : Option String → String
  | none => "None"
  | some s => s

/-- `Parser._declare` (lines 83-86): raise `FFIError` if the qualified name is
already present, else store the binding. -/
def declare (st : St) (name : String) (obj : CType) : Except Err Unit × St :=
  match alookup st.declarations name with
  | some _ => (.error (.ffiError ("multiple declarations of " ++ name)), st)
  | none => (.ok (), { st with declarations := ainsert st.declarations name obj })

/-- `Parser._get_type_pointer` (lines 88-91): pointer-to-function collapses to
the function type itself. -/
def get_type_pointer (t : CType) : CType :=
  match t with
  | .function args result ellipsis => .function args result ellipsis
  | _ => .pointer t

/-- `Parser._parse_constant` (lines 264-275): an immediate integer constant or
unary minus of one, anything else is an `FFIError`. -/
def parse_constant : ExprNode → Except Err Int
  | .constant v => .ok v
  | .unaryOp op e =>
    if op = "-" then
      match parse_constant e with
      | .error er => .error er
      | .ok v => .ok (-v)
    else .error (.ffiError "unsupported non-constant or not immediately constant expression")
  | .otherExpr => .error (.ffiError "unsupported non-constant or not immediately constant expression")

/-- The enumerator-value loop of `_get_enum_type` (lines 286-291): an explicit
value resets the running counter; every enumerator consumes the current value
and the counter then increments by one. -/
def enum_values : List EnumeratorNode → Int → Except Err (List Int)
  | [], _ => .ok []
  | e :: rest, nextv =>
    match (match e.value with
           | none => Except.ok nextv
           | some ex => parse_constant ex) with
    | .error er => .error er
    | .ok v =>
      match enum_values rest (v + 1) with
      | .error er => .error er
      | .ok vs => .ok (v :: vs)

/-- `Parser._get_enum_type` (lines 277-299).  Note that the key is
`'enum %s' % name`, so an anonymous enum uses the literal key `"enum None"`;
an opaque enum (no enumerator list) allocates a fresh `EnumType` and does not
touch the Declaration Table. -/
def get_enum_type (st : St) (ename : Option String) (values : Option (List EnumeratorNode)) :
    Except Err CType × St :=
  let key := "enum " ++ pyFmt ename
  match alookup st.declarations key with
  | some tp => (.ok tp, st)
  | none =>
    match values with
    | some decls =>
      let enumerators := decls.map (fun e => e.name)
      match enum_values decls 0 with
      | .error e => (.error e, st)
      | .ok vals =>
        let tp := CType.enumRef st.heap.length
        (.ok tp, { st with
                    heap := st.heap ++ [Obj.enumObj ename enumerators vals],
                    declarations := ainsert st.declarations key tp })
    | none =>
      (.ok (CType.enumRef st.heap.length),
       { st with heap := st.heap ++ [Obj.enumObj ename [] []] })

/-- Signature of the recursive type resolver as passed to the helper
functions: state, node, `convert_array_to_pointer`, `force_pointer`, `name`. -/
abbrev GT := St → TypeNode → Bool → Bool → Option String → Except Err CType × St

/-- The field loop of `_get_struct_or_union_type` (lines 245-258): per field,
first the structural check for the `__dotdotdot__` sentinel (whose handling is
the bare name `xxxx` at line 248, i.e. a runtime `NameError`), then the
bit-field width (-1 when absent), then the field type via the resolver. -/
def fields_loop (gt : GT) :
    St → List FieldNode → Except Err (List (Option String) × List CType × List Int) × St
  | st, [] => (.ok ([], [], []), st)
  | st, .mk fname ftype fbit :: rest =>
    let dotdot : Bool :=
      match ftype with
      | .identifierType ns => String.join ns == "__dotdotdot__"
      | _ => false
    if dotdot then
      (.error (.nameError "name xxxx is not defined"), st)
    else
      match (match fbit with
             | none => Except.ok (-1 : Int)
             | some e => parse_constant e) with
      | .error e => (.error e, st)
      | .ok bitsize =>
        match gt st ftype false false none with
        | (.error e, st1) => (.error e, st1)
        | (.ok t, st1) =>
          match fields_loop gt st1 rest with
          | (.error e, st2) => (.error e, st2)
          | (.ok (ns, ts, bs), st2) => (.ok (fname :: ns, t :: ts, bitsize :: bs), st2)

/-- Lines 234-262 of `_get_struct_or_union_type`, entered with the type object
`tp` in hand: return as-is when there is no field list; otherwise reject a
second field list (`CDefError`, message always says `struct`), else run the
field loop and set the three field tuples together.  The `attrError` branches
model the `AttributeError` Python would raise if `tp` were not a
struct/union object (unreachable through the public entry points). -/
def struct_decls_part (gt : GT) (st : St) (tp : CType) (sname : Option String)
    (sdecls : Option (List FieldNode)) : Except Err CType × St :=
  match sdecls with
  | none => (.ok tp, st)
  | some ds =>
    match tp with
    | .structRef i =>
      match st.heap[i]? with
      | some (.structObj k2 nm2 fns _ _) =>
        match fns with
        | some _ =>
          (.error (.cdefError ("duplicate declaration of struct " ++ pyFmt sname)), st)
        | none =>
          match fields_loop gt st ds with
          | (.error e, st1) => (.error e, st1)
          | (.ok (ns, ts, bs), st1) =>
            (.ok tp, { st1 with heap := st1.heap.set i (.structObj k2 nm2 (some ns) (some ts) (some bs)) })
      | _ => (.error (.attrError "fldnames"), st)
    | _ => (.error (.attrError "fldnames"), st)

/-- Lines 208-215 of `_get_struct_or_union_type`: pick the synthetic display
name of an anonymous aggregate, from the enclosing declarator's `declname`
when one is available and a string, else from the monotonically increasing
anonymous counter (incremented first, as in the source). -/
def anon_name (st : St) (td : Option (Option String)) : String × St :=
  match td with
  | some (some dn) => ("$" ++ dn, st)
  | _ => ("$" ++ Nat.repr (st.anonymous_counter + 1),
          { st with anonymous_counter := st.anonymous_counter + 1 })

/-- `Parser._get_struct_or_union_type` (lines 183-262).  `nid` is the identity
of the struct/union syntax node; `td` is the enclosing `typenode` argument:
`none` when no typenode was passed, `some dn` when a `TypeDecl` with declname
`dn` was passed.  The identity-cache entry is written before any field of the
field list is resolved. -/
def get_struct_or_union (gt : GT) (st : St) (kind : String) (nid : Nat)
    (sname : Option String) (sdecls : Option (List FieldNode))
    (td : Option (Option String)) : Except Err CType × St :=
  match alookup st.structnode2type nid with
  | some tp => (.ok tp, st)
  | none =>
    match sname with
    | some n =>
      -- named tag: explicit_name = n, key = '<kind> <name>' (lines 217-220)
      let key := kind ++ " " ++ n
      match alookup st.declarations key with
      | some tp =>
        -- reuse the declared (possibly incomplete) type (line 220)
        struct_decls_part gt
          { st with structnode2type := ainsert st.structnode2type nid tp } tp sname sdecls
      | none =>
        if kind = "struct" ∨ kind = "union" then
          -- allocate a fresh incomplete StructType/UnionType (lines 222-228)
          let tp := CType.structRef st.heap.length
          let st2 := { st with heap := st.heap ++ [Obj.structObj kind n none none none] }
          match declare st2 key tp with
          | (.error e, st3) => (.error e, st3)
          | (.ok _, st3) =>
            struct_decls_part gt
              { st3 with structnode2type := ainsert st3.structnode2type nid tp } tp sname sdecls
        else
          (.error (.assertError ("kind = " ++ kind)), st)
    | none =>
      -- anonymous tag: never consult or populate the Declaration Table
      let ens := anon_name st td
      if kind = "struct" ∨ kind = "union" then
        let tp := CType.structRef ens.2.heap.length
        let st2 := { ens.2 with heap := ens.2.heap ++ [Obj.structObj kind ens.1 none none none] }
        struct_decls_part gt
          { st2 with structnode2type := ainsert st2.structnode2type nid tp } tp sname sdecls
      else
        (.error (.assertError ("kind = " ++ kind)), ens.2)

/-- The parameter loop of `_parse_function_type` (lines 177-179): resolve each
parameter type with `convert_array_to_pointer` enabled. -/
def get_type_list (gt : GT) : St → List TypeNode → Except Err (List CType) × St
  | st, [] => (.ok [], st)
  | st, p :: rest =>
    match gt st p true false none with
    | (.error e, st1) => (.error e, st1)
    | (.ok t, st1) =>
      match get_type_list gt st1 rest with
      | (.error e, st2) => (.error e, st2)
      | (.ok ts, st2) => (.ok (t :: ts), st2)

/-- Lines 163-176 of `_parse_function_type`: detect and pop a trailing
`__dotdotdot__` parameter (the variadic marker), then drop a sole `void`
parameter (the explicit zero-parameter marker).  Returns the remaining
parameter list and the ellipsis flag. -/
def function_params (params0 : List TypeNode) : List TypeNode × Bool :=
  let ellipsis : Bool :=
    match params0.getLast? with
    | some (.typeDecl _ (.identifierType ns)) => ns == ["__dotdotdot__"]
    | _ => false
  let params1 := if ellipsis then params0.dropLast else params0
  let params2 :=
    match params1 with
    | [.typeDecl _ (.identifierType ns)] => if ns == ["void"] then [] else params1
    | _ => params1
  (params2, ellipsis)

/-- `Parser._parse_function_type` (lines 162-181): preprocess the parameter
list, resolve parameters with array decay, then the result type. -/
def parse_function_type (gt : GT) (st : St) (params0 : List TypeNode) (ret : TypeNode)
    (funcname : Option String) : Except Err CType × St :=
  match get_type_list gt st (function_params params0).1 with
  | (.error e, st1) => (.error e, st1)
  | (.ok args, st1) =>
    match gt st1 ret false false none with
    | (.error e, st2) => (.error e, st2)
    | (.ok result, st2) => (.ok (.function args result (function_params params0).2), st2)

/-- `Parser._get_type` (lines 93-160).  Branch order follows the source:
typedef dereference first (with the two modifiers applied at the substitution
point), then array declarators, then the `force_pointer` wrap, then pointer
declarators, plain type nodes (primitive normalization, struct/union/enum
delegation) and function declarators; anything else is an `FFIError`. -/
def get_type : Nat → St → TypeNode → Bool → Bool → Option String → Except Err CType × St
  | 0, st, _, _, _, _ => (.error .fuelOut, st)
  | fuel + 1, st, typenode, convert_array_to_pointer, force_pointer, name =>
    let gt : GT := fun s n c f nm => get_type fuel s n c f nm
    let typedef_hit : Option CType :=
      match typenode with
      | .typeDecl _ (.identifierType [n1]) => alookup st.declarations ("typedef " ++ n1)
      | _ => none
    match typedef_hit with
    | some ty =>
      match ty with
      | .array item _ =>
        if convert_array_to_pointer then (.ok item, st) else (.ok ty, st)
      | _ =>
        if force_pointer then (.ok (get_type_pointer ty), st) else (.ok ty, st)
    | none =>
      match typenode with
      | .arrayDecl inner dim =>
        if convert_array_to_pointer then
          match gt st inner false false none with
          | (.error e, st1) => (.error e, st1)
          | (.ok t, st1) => (.ok (get_type_pointer t), st1)
        else
          match (match dim with
                 | none => Except.ok (none : Option Int)
                 | some d =>
                   match parse_constant d with
                   | .error e => Except.error e
                   | .ok v => Except.ok (some v)) with
          | .error e => (.error e, st)
          | .ok length =>
            match gt st inner false false none with
            | (.error e, st1) => (.error e, st1)
            | (.ok t, st1) => (.ok (.array t length), st1)
      | _ =>
        if force_pointer then
          match gt st typenode false false none with
          | (.error e, st1) => (.error e, st1)
          | (.ok t, st1) => (.ok (.pointer t), st1)
        else
          match typenode with
          | .ptrDecl inner =>
            match gt st inner false false none with
            | (.error e, st1) => (.error e, st1)
            | (.ok t, st1) => (.ok (get_type_pointer t), st1)
          | .typeDecl declname ity =>
            match ity with
            | .identifierType names =>
              let names1 := if names = ["signed"] ∨ names = ["unsigned"]
                            then names ++ ["int"] else names
              match names1 with
              | [] => (.error (.indexError "list index out of range"), st)
              | n0 :: _ =>
                let names2 := if n0 = "signed" ∧ names1 ≠ ["signed", "char"]
                              then names1.tail else names1
                let names3 := if 1 < names2.length ∧ names2.getLast? = some "int" ∧
                                 names2 ≠ ["unsigned", "int"]
                              then names2.dropLast else names2
                let ident := String.intercalate " " names3
                if ident = "void" then (.ok .void, st) else (.ok (.primitive ident), st)
            | .structNode nid snm sdecls =>
              get_struct_or_union gt st "struct" nid snm sdecls (some declname)
            | .unionNode nid snm sdecls =>
              get_struct_or_union gt st "union" nid snm sdecls (some declname)
            | .enumNode en vals => get_enum_type st en vals
            | _ => (.error (.ffiError "bad or unsupported type declaration"), st)
          | .funcDecl params ret => parse_function_type gt st params ret name
          | _ => (.error (.ffiError "bad or unsupported type declaration"), st)

/-- Lines 61-73 of `Parser._parse_decl`: resolve a tagged struct/union body or
an enum body for its side effects, or reject a construct that declares
nothing (Python truthiness of `decl.name`: both `None` and the empty string
are falsy). -/
def parse_decl_tagpart (fuel : Nat) (st : St) (dname : Option String) (node : TypeNode) :
    Except Err Unit × St :=
  let gt : GT := fun s n c f nm => get_type fuel s n c f nm
  match node with
  | .structNode nid snm sdecls =>
    match sdecls with
    | some _ =>
      match get_struct_or_union gt st "struct" nid snm sdecls none with
      | (.error e, st1) => (.error e, st1)
      | (.ok _, st1) => (.ok (), st1)
    | none => (.ok (), st)
  | .unionNode nid snm sdecls =>
    match sdecls with
    | some _ =>
      match get_struct_or_union gt st "union" nid snm sdecls none with
      | (.error e, st1) => (.error e, st1)
      | (.ok _, st1) => (.ok (), st1)
    | none => (.ok (), st)
  | .enumNode en vals =>
    match vals with
    | some _ =>
      match get_enum_type st en vals with
      | (.error e, st1) => (.error e, st1)
      | (.ok _, st1) => (.ok (), st1)
    | none => (.ok (), st)
  | _ =>
    match dname with
    | none => (.error (.cdefError "construct does not declare any variable"), st)
    | some nm =>
      if nm = "" then (.error (.cdefError "construct does not declare any variable"), st)
      else (.ok (), st)

/-- `Parser._parse_decl` (lines 55-76): function declarations register
`function <name>` (after resolving the type, as Python evaluates the
arguments of `_declare` first); other declarations first run the tagged-type
side effects of lines 61-73, then a named declaration additionally registers
`variable <name>`. -/
def parse_decl (fuel : Nat) (st : St) (dname : Option String) (node : TypeNode) :
    Except Err Unit × St :=
  match node with
  | .funcDecl _ _ =>
    match dname with
    | none => (.error (.typeError "cannot concatenate str and NoneType"), st)
    | some nm =>
      match get_type fuel st node false false (some nm) with
      | (.error e, st1) => (.error e, st1)
      | (.ok t, st1) => declare st1 ("function " ++ nm) t
  | _ =>
    match parse_decl_tagpart fuel st dname node with
    | (.error e, st1) => (.error e, st1)
    | (.ok _, st1) =>
      match dname with
      | none => (.ok (), st1)
      | some nm =>
        if nm = "" then (.ok (), st1)
        else
          match get_type fuel st1 node false false none with
          | (.error e, st2) => (.error e, st2)
          | (.ok t, st2) => declare st2 ("variable " ++ nm) t

/-- The declaration loop of `Parser.parse` (lines 43-53), over the entries
after the sentinel typedef. -/
def parse_ext (fuel : Nat) : St → List ExtDecl → Except Err Unit × St
  | st, [] => (.ok (), st)
  | st, d :: rest =>
    match d with
    | .decl n t =>
      match parse_decl fuel st n t with
      | (.error e, st1) => (.error e, st1)
      | (.ok _, st1) => parse_ext fuel st1 rest
    | .typedefDecl n t =>
      match n with
      | none => (.error (.cdefError "typedef does not declare any name"), st)
      | some nm =>
        if nm = "" then (.error (.cdefError "typedef does not declare any name"), st)
        else
          match get_type fuel st t false false none with
          | (.error e, st1) => (.error e, st1)
          | (.ok ty, st1) =>
            match declare st1 ("typedef " ++ nm) ty with
            | (.error e, st2) => (.error e, st2)
            | (.ok _, st2) => parse_ext fuel st2 rest
    | .otherDecl => (.error (.cdefError "unrecognized construct"), st)

/-- The `decl.name` read by the sentinel-skipping loop of `Parser.parse`. -/
def extName : ExtDecl → Option String
  | .decl n _ => n
  | .typedefDecl n _ => n
  | .otherDecl => none

/-- Lines 38-41 of `Parser.parse`: consume entries up to and including the
first one named `__dotdotdot__` (the preprocessor's injected sentinel). -/
def skip_sentinel : List ExtDecl → List ExtDecl
  | [] => []
  | d :: rest => if extName d = some "__dotdotdot__" then rest else skip_sentinel rest

/-- `Parser.parse` (lines 34-53), starting from the front end's top-level
declaration list: skip the injected typedefs, then process every remaining
entry in order, mutating the shared state as it goes. -/
def parse (fuel : Nat) (st : St) (ext : List ExtDecl) : Except Err Unit × St :=
  parse_ext fuel st (skip_sentinel ext)

/-- `Parser.parse_type` (lines 78-81), starting from the syntax node of the
sole parameter of the synthetic `void __dummy(<cdecl>);` declaration. -/
def parse_type (fuel : Nat) (st : St) (typenode : TypeNode) (force_pointer : Bool) :
    Except Err CType × St :=
  get_type fuel st typenode false force_pointer none

/-! ### Association-list lemmas -/

/-- Inserting key `k` makes it look up to the inserted value. -/
theorem alookup_ainsert_self {κ α : Type} [DecidableEq κ] (l : List (κ × α)) (k : κ) (v : α) :
    alookup (ainsert l k v) k = some v := by
  induction l with
  | nil => simp [ainsert, alookup]
  | cons p rest ih =>
    obtain ⟨k1, v1⟩ := p
    by_cases h : k1 = k <;> simp [ainsert, alookup, h, ih]

/-- Inserting key `k` does not change the lookup of any other key. -/
theorem alookup_ainsert_ne {κ α : Type} [DecidableEq κ] (l : List (κ × α)) (k k2 : κ) (v : α)
    (h : k ≠ k2) : alookup (ainsert l k v) k2 = alookup l k2 := by
  induction l with
  | nil => simp [ainsert, alookup, h]
  | cons p rest ih =>
    obtain ⟨k1, v1⟩ := p
    by_cases h1 : k1 = k
    · subst h1; simp [ainsert, alookup, h]
    · simp [ainsert, alookup, h1, ih]

/-! ### Monotonicity of the Declaration Table

`DMono s s2` says every binding of `s` is still present, unchanged, in `s2`;
`TagNew s s2` says every key newly present in `s2` lives in the `struct `,
`union ` or `enum ` namespace.  The resolver family preserves both; the
registrar (`parse_decl` and above) preserves `DMono`. -/

def DMono (s s2 : St) : Prop :=
  ∀ k v, alookup s.declarations k = some v → alookup s2.declarations k = some v

def TagKey (k : String) : Prop :=
  ∃ n, k = "struct " ++ n ∨ k = "union " ++ n ∨ k = "enum " ++ n

def TagNew (s s2 : St) : Prop :=
  ∀ k, alookup s.declarations k = none →
    ∀ v, alookup s2.declarations k = some v → TagKey k

def Tag (s s2 : St) : Prop := DMono s s2 ∧ TagNew s s2

theorem DMono_refl (s : St) : DMono s s := fun _ _ h => h

theorem DMono_of_eq {s s2 : St} (h : s2.declarations = s.declarations) : DMono s s2 := by
  intro k v hk; rw [h]; exact hk

theorem DMono_trans {a b c : St} (h1 : DMono a b) (h2 : DMono b c) : DMono a c :=
  fun k v hk => h2 k v (h1 k v hk)

theorem Tag_refl (s : St) : Tag s s :=
  ⟨DMono_refl s, fun k hk v hv => absurd hv (by rw [hk]; exact fun h => Option.noConfusion h)⟩

theorem Tag_of_eq {s s2 : St} (h : s2.declarations = s.declarations) : Tag s s2 := by
  refine ⟨DMono_of_eq h, ?_⟩
  intro k hk v hv
  rw [h, hk] at hv
  exact Option.noConfusion hv

theorem Tag_trans {a b c : St} (h1 : Tag a b) (h2 : Tag b c) : Tag a c := by
  refine ⟨DMono_trans h1.1 h2.1, ?_⟩
  intro k hk v hv
  cases hb : alookup b.declarations k with
  | none => exact h2.2 k hb v hv
  | some w => exact h1.2 k hk w hb

/-- An insertion of an absent key whose name is in a tag namespace. -/
theorem Tag_ainsert {s s2 : St} {k : String} {v : CType}
    (heq : s2.declarations = ainsert s.declarations k v)
    (habs : alookup s.declarations k = none) (htag : TagKey k) : Tag s s2 := by
  constructor
  · intro k2 w hw
    by_cases hk : k = k2
    · subst hk; rw [habs] at hw; exact Option.noConfusion hw
    · rw [heq, alookup_ainsert_ne _ _ _ _ hk]; exact hw
  · intro k2 hk2 w hw
    by_cases hk : k = k2
    · subst hk; exact htag
    · rw [heq, alookup_ainsert_ne _ _ _ _ hk, hk2] at hw
      exact Option.noConfusion hw

/-- `_declare` on a key of a tag namespace preserves `Tag` whatever happens. -/
theorem Tag_declare (s : St) (k : String) (v : CType) (htag : TagKey k) :
    Tag s (declare s k v).2 := by
  unfold declare
  cases habs : alookup s.declarations k with
  | some w => exact Tag_refl s
  | none => exact Tag_ainsert rfl habs htag

/-- `_declare` always preserves existing bindings (any key). -/
theorem DMono_declare (s : St) (k : String) (v : CType) : DMono s (declare s k v).2 := by
  unfold declare
  cases habs : alookup s.declarations k with
  | some w => exact DMono_refl s
  | none =>
    intro k2 w hw
    by_cases hk : k = k2
    · subst hk; rw [habs] at hw; exact Option.noConfusion hw
    · simpa [alookup_ainsert_ne _ _ _ _ hk] using hw

/-- The Enum Evaluator only ever adds the key `enum <name>`. -/
theorem tag_get_enum_type (st : St) (en : Option String) (vals : Option (List EnumeratorNode)) :
    Tag st (get_enum_type st en vals).2 := by
  unfold get_enum_type
  dsimp only
  cases h : alookup st.declarations ("enum " ++ pyFmt en) with
  | some tp => exact Tag_refl st
  | none =>
    dsimp only
    cases vals with
    | none => exact Tag_of_eq rfl
    | some decls =>
      dsimp only
      cases hv : enum_values decls 0 with
      | error e => exact Tag_refl st
      | ok vs => exact Tag_ainsert rfl h ⟨pyFmt en, Or.inr (Or.inr rfl)⟩

/-- The field loop only adds tag-namespace keys (via the resolver it is
given). -/
theorem tag_fields_loop (gt : GT) (hgt : ∀ s n c f nm, Tag s (gt s n c f nm).2) :
    ∀ (ds : List FieldNode) (st : St), Tag st (fields_loop gt st ds).2 := by
  intro ds
  induction ds with
  | nil => intro st; exact Tag_refl st
  | cons fd rest ih =>
    intro st
    obtain ⟨fname, ftype, fbit⟩ := fd
    simp only [fields_loop]
    split
    · exact Tag_refl st
    · split
      · exact Tag_refl st
      · split
        · rename_i e st1 heq
          have h := hgt st ftype false false none
          rw [heq] at h; exact h
        · rename_i t st1 heq
          have h1 : Tag st st1 := by
            have h := hgt st ftype false false none; rw [heq] at h; exact h
          split
          · rename_i e st2 heq2
            have h2 : Tag st1 st2 := by
              have h := ih st1; rw [heq2] at h; exact h
            exact Tag_trans h1 h2
          · rename_i ns ts bs st2 heq2
            have h2 : Tag st1 st2 := by
              have h := ih st1; rw [heq2] at h; exact h
            exact Tag_trans h1 h2

/-- The field-list part of the Aggregate Identity Cache only adds
tag-namespace keys. -/
theorem tag_struct_decls_part (gt : GT) (hgt : ∀ s n c f nm, Tag s (gt s n c f nm).2)
    (st : St) (tp : CType) (sname : Option String) (sdecls : Option (List FieldNode)) :
    Tag st (struct_decls_part gt st tp sname sdecls).2 := by
  unfold struct_decls_part
  split
  · exact Tag_refl st
  · rename_i ds
    split
    · split
      · split
        · exact Tag_refl st
        · split
          · rename_i e st1 heq
            have h := tag_fields_loop gt hgt ds st; rw [heq] at h; exact h
          · rename_i ns ts bs st1 heq
            have h := tag_fields_loop gt hgt ds st; rw [heq] at h
            exact Tag_trans h (Tag_of_eq rfl)
      · exact Tag_refl st
    · exact Tag_refl st

/-- The anonymous-name helper never touches the Declaration Table. -/
theorem anon_name_declarations (st : St) (td : Option (Option String)) :
    (anon_name st td).2.declarations = st.declarations := by
  unfold anon_name
  rcases td with _ | td2
  · rfl
  · rcases td2 with _ | dn <;> rfl

/-- The key of a named aggregate is in a tag namespace. -/
theorem tagKey_aggregate (kind : String) (hkind : kind = "struct" ∨ kind = "union")
    (n : String) : TagKey (kind ++ " " ++ n) := by
  rcases hkind with h | h
  · exact ⟨n, Or.inl (by rw [h]; rfl)⟩
  · exact ⟨n, Or.inr (Or.inl (by rw [h]; rfl))⟩

/-- The Aggregate Identity Cache only adds keys in the `struct `/`union `
(and, through field resolution, `enum `) namespaces. -/
theorem tag_get_struct_or_union (gt : GT) (hgt : ∀ s n c f nm, Tag s (gt s n c f nm).2)
    (kind : String) (hkind : kind = "struct" ∨ kind = "union") (st : St) (nid : Nat)
    (sname : Option String) (sdecls : Option (List FieldNode)) (td : Option (Option String)) :
    Tag st (get_struct_or_union gt st kind nid sname sdecls td).2 := by
  unfold get_struct_or_union
  split
  · exact Tag_refl st
  · split
    · -- named tag
      rename_i n
      dsimp only
      split
      · -- already in the Declaration Table
        rename_i tp hlook
        refine Tag_trans (Tag_of_eq ?_) (tag_struct_decls_part gt hgt _ tp (some n) sdecls)
        rfl
      · -- fresh allocation plus _declare
        rename_i hlook
        rw [if_pos hkind]
        split
        · rename_i e st3 heq
          have hd := Tag_declare { st with heap := st.heap ++ [Obj.structObj kind n none none none] }
            (kind ++ " " ++ n) (CType.structRef st.heap.length) (tagKey_aggregate kind hkind n)
          rw [heq] at hd
          exact Tag_trans (Tag_of_eq rfl) hd
        · rename_i u st3 heq
          have hd := Tag_declare { st with heap := st.heap ++ [Obj.structObj kind n none none none] }
            (kind ++ " " ++ n) (CType.structRef st.heap.length) (tagKey_aggregate kind hkind n)
          rw [heq] at hd
          refine Tag_trans (Tag_trans (Tag_of_eq ?_) hd)
            (Tag_trans (Tag_of_eq ?_)
              (tag_struct_decls_part gt hgt _ (CType.structRef st.heap.length) (some n) sdecls)) <;> rfl
    · -- anonymous tag: the Declaration Table is never consulted by name
      dsimp only
      rw [if_pos hkind]
      refine Tag_trans (Tag_of_eq (anon_name_declarations st td))
        (Tag_trans (Tag_of_eq ?_)
          (tag_struct_decls_part gt hgt _ (CType.structRef (anon_name st td).2.heap.length) none sdecls))
      rfl

/-- The parameter loop only adds tag-namespace keys. -/
theorem tag_get_type_list (gt : GT) (hgt : ∀ s n c f nm, Tag s (gt s n c f nm).2) :
    ∀ (ps : List TypeNode) (st : St), Tag st (get_type_list gt st ps).2 := by
  intro ps
  induction ps with
  | nil => intro st; exact Tag_refl st
  | cons p rest ih =>
    intro st
    simp only [get_type_list]
    split
    · rename_i e st1 heq
      have h := hgt st p true false none; rw [heq] at h; exact h
    · rename_i t st1 heq
      have h1 : Tag st st1 := by have h := hgt st p true false none; rw [heq] at h; exact h
      split
      · rename_i e st2 heq2
        have h2 : Tag st1 st2 := by have h := ih st1; rw [heq2] at h; exact h
        exact Tag_trans h1 h2
      · rename_i ts st2 heq2
        have h2 : Tag st1 st2 := by have h := ih st1; rw [heq2] at h; exact h
        exact Tag_trans h1 h2

/-- Function-type resolution only adds tag-namespace keys. -/
theorem tag_parse_function_type (gt : GT) (hgt : ∀ s n c f nm, Tag s (gt s n c f nm).2)
    (st : St) (params0 : List TypeNode) (ret : TypeNode) (fn : Option String) :
    Tag st (parse_function_type gt st params0 ret fn).2 := by
  unfold parse_function_type
  split
  · rename_i e st1 heq
    have h := tag_get_type_list gt hgt (function_params params0).1 st
    rw [heq] at h; exact h
  · rename_i args st1 heq
    have h1 : Tag st st1 := by
      have h := tag_get_type_list gt hgt (function_params params0).1 st
      rw [heq] at h; exact h
    split
    · rename_i e st2 heq2
      have h2 : Tag st1 st2 := by
        have h := hgt st1 ret false false none; rw [heq2] at h; exact h
      exact Tag_trans h1 h2
    · rename_i r st2 heq2
      have h2 : Tag st1 st2 := by
        have h := hgt st1 ret false false none; rw [heq2] at h; exact h
      exact Tag_trans h1 h2

/-- The Type Resolver only adds tag-namespace (`struct `/`union `/`enum `)
keys to the Declaration Table, and never disturbs an existing binding. -/
theorem tag_get_type : ∀ (fuel : Nat) (st : St) (node : TypeNode) (cap fp : Bool)
    (nm : Option String), Tag st (get_type fuel st node cap fp nm).2 := by
  intro fuel
  induction fuel with
  | zero => intro st node cap fp nm; exact Tag_refl st
  | succ fuel ih =>
    intro st node cap fp nm
    have hgt : ∀ s n c f nm2, Tag s (get_type fuel s n c f nm2).2 :=
      fun s n c f nm2 => ih s n c f nm2
    simp only [get_type]
    split
    · -- typedef dereference: no state change in any outcome
      split
      · split <;> exact Tag_refl st
      · split <;> exact Tag_refl st
    · split
      · -- array declarator
        rename_i inner dim heqtd
        split
        · split
          · rename_i e st1 heq
            have h := hgt st inner false false none; rw [heq] at h; exact h
          · rename_i t st1 heq
            have h := hgt st inner false false none; rw [heq] at h; exact h
        · split
          · exact Tag_refl st
          · split
            · rename_i e st1 heq
              have h := hgt st inner false false none; rw [heq] at h; exact h
            · rename_i t st1 heq
              have h := hgt st inner false false none; rw [heq] at h; exact h
      · -- not an array declarator
        split
        · -- force_pointer wrap
          split
          · rename_i e st1 heq
            have h := hgt st node false false none; rw [heq] at h; exact h
          · rename_i t st1 heq
            have h := hgt st node false false none; rw [heq] at h; exact h
        · split
          · -- pointer declarator
            rename_i inner heqtd hnot
            split
            · rename_i e st1 heq
              have h := hgt st inner false false none; rw [heq] at h; exact h
            · rename_i t st1 heq
              have h := hgt st inner false false none; rw [heq] at h; exact h
          · -- plain TypeDecl
            split
            · -- primitive identifier list: no state change
              repeat' split
              all_goals exact Tag_refl st
            · exact tag_get_struct_or_union _ hgt "struct" (Or.inl rfl) _ _ _ _ _
            · exact tag_get_struct_or_union _ hgt "union" (Or.inr rfl) _ _ _ _ _
            · exact tag_get_enum_type st _ _
            · exact Tag_refl st
          · -- function declarator
            exact tag_parse_function_type _ hgt st _ _ _
          · exact Tag_refl st

/-- The tagged-type side effects of `_parse_decl` preserve existing
bindings. -/
theorem dmono_parse_decl_tagpart (fuel : Nat) (st : St) (dname : Option String)
    (node : TypeNode) : DMono st (parse_decl_tagpart fuel st dname node).2 := by
  have hgt : ∀ s n c f nm2, Tag s (get_type fuel s n c f nm2).2 :=
    fun s n c f nm2 => tag_get_type fuel s n c f nm2
  unfold parse_decl_tagpart
  dsimp only
  split
  · -- structNode
    rename_i nid snm sdecls
    split
    · rename_i val
      split
      · rename_i e st1 heq
        have h := (tag_get_struct_or_union _ hgt "struct" (Or.inl rfl) st nid snm (some val) none).1
        rw [heq] at h; exact h
      · rename_i u st1 heq
        have h := (tag_get_struct_or_union _ hgt "struct" (Or.inl rfl) st nid snm (some val) none).1
        rw [heq] at h; exact h
    · exact DMono_refl st
  · -- unionNode
    rename_i nid snm sdecls
    split
    · rename_i val
      split
      · rename_i e st1 heq
        have h := (tag_get_struct_or_union _ hgt "union" (Or.inr rfl) st nid snm (some val) none).1
        rw [heq] at h; exact h
      · rename_i u st1 heq
        have h := (tag_get_struct_or_union _ hgt "union" (Or.inr rfl) st nid snm (some val) none).1
        rw [heq] at h; exact h
    · exact DMono_refl st
  · -- enumNode
    rename_i en vals
    split
    · rename_i val
      split
      · rename_i e st1 heq
        have h := (tag_get_enum_type st en (some val)).1
        rw [heq] at h; exact h
      · rename_i u st1 heq
        have h := (tag_get_enum_type st en (some val)).1
        rw [heq] at h; exact h
    · exact DMono_refl st
  · -- no tagged type
    split
    · exact DMono_refl st
    · split <;> exact DMono_refl st

/-- The Declaration Registrar preserves existing bindings for one
declaration. -/
theorem dmono_parse_decl (fuel : Nat) (st : St) (dname : Option String) (node : TypeNode) :
    DMono st (parse_decl fuel st dname node).2 := by
  unfold parse_decl
  split
  · -- funcDecl
    rename_i params ret
    split
    · exact DMono_refl st
    · rename_i nm
      split
      · rename_i e st1 heq
        have h := (tag_get_type fuel st (.funcDecl params ret) false false (some nm)).1
        rw [heq] at h; exact h
      · rename_i t st1 heq
        have h1 : DMono st st1 := by
          have h := (tag_get_type fuel st (.funcDecl params ret) false false (some nm)).1
          rw [heq] at h; exact h
        exact DMono_trans h1 (DMono_declare st1 ("function " ++ nm) t)
  · -- other declarations
    split
    · rename_i e st1 heq
      have h := dmono_parse_decl_tagpart fuel st dname node
      rw [heq] at h; exact h
    · rename_i u st1 heq
      have h1 : DMono st st1 := by
        have h := dmono_parse_decl_tagpart fuel st dname node
        rw [heq] at h; exact h
      split
      · exact h1
      · rename_i nm
        split
        · exact h1
        · split
          · rename_i e st2 heq2
            have h2 : DMono st1 st2 := by
              have h := (tag_get_type fuel st1 node false false none).1
              rw [heq2] at h; exact h
            exact DMono_trans h1 h2
          · rename_i t st2 heq2
            have h2 : DMono st1 st2 := by
              have h := (tag_get_type fuel st1 node false false none).1
              rw [heq2] at h; exact h
            exact DMono_trans (DMono_trans h1 h2) (DMono_declare st2 ("variable " ++ nm) t)

/-- The declaration loop of `parse` preserves existing bindings. -/
theorem dmono_parse_ext (fuel : Nat) :
    ∀ (ext : List ExtDecl) (st : St), DMono st (parse_ext fuel st ext).2 := by
  intro ext
  induction ext with
  | nil => intro st; exact DMono_refl st
  | cons d rest ih =>
    intro st
    simp only [parse_ext]
    split
    · -- plain declaration
      rename_i n t
      split
      · rename_i e st1 heq
        have h := dmono_parse_decl fuel st n t
        rw [heq] at h; exact h
      · rename_i u st1 heq
        have h1 : DMono st st1 := by
          have h := dmono_parse_decl fuel st n t
          rw [heq] at h; exact h
        exact DMono_trans h1 (ih st1)
    · -- typedef
      rename_i n t
      split
      · exact DMono_refl st
      · rename_i nm
        split
        · exact DMono_refl st
        · split
          · rename_i e st1 heq
            have h := (tag_get_type fuel st t false false none).1
            rw [heq] at h; exact h
          · rename_i ty st1 heq
            have h1 : DMono st st1 := by
              have h := (tag_get_type fuel st t false false none).1
              rw [heq] at h; exact h
            split
            · rename_i e st2 heq2
              have h2 : DMono st1 st2 := by
                have h := DMono_declare st1 ("typedef " ++ nm) ty
                rw [heq2] at h; exact h
              exact DMono_trans h1 h2
            · rename_i u st2 heq2
              have h2 : DMono st1 st2 := by
                have h := DMono_declare st1 ("typedef " ++ nm) ty
                rw [heq2] at h; exact h
              exact DMono_trans (DMono_trans h1 h2) (ih st2)
    · exact DMono_refl st

/-- `parse` preserves existing bindings: once a qualified name is in the
Declaration Table, every later call sees the same binding. -/
theorem dmono_parse (fuel : Nat) (st : St) (ext : List ExtDecl) :
    DMono st (parse fuel st ext).2 :=
  dmono_parse_ext fuel (skip_sentinel ext) st

/-! ### Small helper lemmas for the claim theorems -/

/-- Key strings built by the Aggregate Identity Cache normalize. -/
theorem struct_key_eq (n : String) : ("struct" ++ " " ++ n : String) = "struct " ++ n := rfl

/-- Setting the slot just appended overwrites it. -/
theorem append_set_length {α : Type} (l : List α) (a b : α) :
    (l ++ [a]).set l.length b = l ++ [b] := by
  induction l with
  | nil => rfl
  | cons x xs ih => simp [List.set, ih]

/-- Reading the slot just appended. -/
theorem getq_append_length {α : Type} (l : List α) (b : α) :
    (l ++ [b])[l.length]? = some b := by
  induction l with
  | nil => rfl
  | cons x xs ih => simp [ih]

/-- A `variable ` qualified name is in none of the tag namespaces. -/
theorem varKey_not_tagKey (m : String) : ¬ TagKey ("variable " ++ m) := by
  rintro ⟨n2, h | h | h⟩ <;>
    · have hd := congrArg String.data h
      simp [String.data_append] at hd

/-- A `function ` qualified name is in none of the tag namespaces. -/
theorem funcKey_not_tagKey (m : String) : ¬ TagKey ("function " ++ m) := by
  rintro ⟨n2, h | h | h⟩ <;>
    · have hd := congrArg String.data h
      simp [String.data_append] at hd

/-! ### Claim theorems -/

/-- C1, counterexample: a `parse` call over `int x;` followed by a declaration
with a non-constant array length raises an error, yet the new top-level
qualified name `variable x` registered before the failure is visible in the
Declaration Table afterwards — the key set is not the same as before the
call. -/
theorem claim_C1_counterexample :
    (parse 3 init_state
        [ExtDecl.typedefDecl (some "__dotdotdot__")
           (.typeDecl (some "__dotdotdot__") (.identifierType ["int"])),
         ExtDecl.decl (some "x") (.typeDecl (some "x") (.identifierType ["int"])),
         ExtDecl.decl (some "y")
           (.arrayDecl (.typeDecl (some "y") (.identifierType ["int"])) (some .otherExpr))]).1
      = .error (.ffiError "unsupported non-constant or not immediately constant expression")
    ∧ alookup (parse 3 init_state
        [ExtDecl.typedefDecl (some "__dotdotdot__")
           (.typeDecl (some "__dotdotdot__") (.identifierType ["int"])),
         ExtDecl.decl (some "x") (.typeDecl (some "x") (.identifierType ["int"])),
         ExtDecl.decl (some "y")
           (.arrayDecl (.typeDecl (some "y") (.identifierType ["int"])) (some .otherExpr))]).2.declarations
        "variable x" = some (.primitive "int")
    ∧ alookup init_state.declarations "variable x" = none :=
  ⟨rfl, rfl, rfl⟩

/-- C1, amended: a failing `declare_from_text` call is not rolled back: names
registered by the declarations processed before the failure remain visible,
but every binding present before the call is still present, unchanged,
afterwards. -/
theorem claim_C1_amended (fuel : Nat) (st : St) (ext : List ExtDecl) (e : Err) (st2 : St)
    (h : parse fuel st ext = (.error e, st2)) :
    ∀ k v, alookup st.declarations k = some v → alookup st2.declarations k = some v := by
  intro k v hk
  have hm := dmono_parse fuel st ext k v hk
  rw [h] at hm
  exact hm

/-- C1, witness for the amended theorem at a concrete failing call. -/
theorem claim_C1_witness :
    alookup (parse 3
        { declarations := [("typedef t", CType.void)], anonymous_counter := 0,
          structnode2type := [], heap := [] }
        [ExtDecl.typedefDecl (some "__dotdotdot__")
           (.typeDecl (some "__dotdotdot__") (.identifierType ["int"])),
         ExtDecl.decl (some "x") (.typeDecl (some "x") (.identifierType ["int"])),
         ExtDecl.decl (some "y")
           (.arrayDecl (.typeDecl (some "y") (.identifierType ["int"])) (some .otherExpr))]).2.declarations
      "typedef t" = some CType.void :=
  claim_C1_amended 3
    { declarations := [("typedef t", CType.void)], anonymous_counter := 0,
      structnode2type := [], heap := [] }
    [ExtDecl.typedefDecl (some "__dotdotdot__")
       (.typeDecl (some "__dotdotdot__") (.identifierType ["int"])),
     ExtDecl.decl (some "x") (.typeDecl (some "x") (.identifierType ["int"])),
     ExtDecl.decl (some "y")
       (.arrayDecl (.typeDecl (some "y") (.identifierType ["int"])) (some .otherExpr))]
    (.ffiError "unsupported non-constant or not immediately constant expression")
    { declarations := [("typedef t", CType.void), ("variable x", CType.primitive "int")],
      anonymous_counter := 0, structnode2type := [], heap := [] }
    rfl "typedef t" CType.void rfl

/-- C2: resolving a bare named-type reference to a typedef bound to an Array
with `convert_array_to_pointer` enabled returns the Array's *element type
itself* (line 103 returns `type.item`), not a Pointer to the element as the
claim states; the sibling array-declarator branch (line 112) does wrap in a
pointer, so the typedef branch is a slip. -/
theorem claim_C2 :
    get_type 1
        { declarations := [("typedef myarr", CType.array (.primitive "int") (some 10))],
          anonymous_counter := 0, structnode2type := [], heap := [] }
        (.typeDecl none (.identifierType ["myarr"])) true false none
      = (.ok (.primitive "int"),
         { declarations := [("typedef myarr", CType.array (.primitive "int") (some 10))],
           anonymous_counter := 0, structnode2type := [], heap := [] })
    ∧ CType.primitive "int" ≠ CType.pointer (.primitive "int") :=
  ⟨rfl, fun h => CType.noConfusion h⟩

/-- C3: resolving `struct <n> { <fname> : pointer to struct <n> }` from any
state in which the tag is undeclared and both syntax nodes are uncached
terminates, registers the tag, and sets the field list so that the field's
pointee is `structRef st.heap.length` — the very arena object returned for
the struct being defined (object identity), not a copy. -/
theorem claim_C3 (fuel : Nat) (st : St) (n fname : String) (nid nid2 : Nat) (dn : Option String)
    (hdecl : alookup st.declarations ("struct " ++ n) = none)
    (hc1 : alookup st.structnode2type nid = none)
    (hc2 : alookup st.structnode2type nid2 = none)
    (hne : nid ≠ nid2) :
    get_type (fuel + 3) st
        (.typeDecl dn (.structNode nid (some n)
          (some [.mk (some fname)
                   (.ptrDecl (.typeDecl none (.structNode nid2 (some n) none))) none])))
        false false none
      = (.ok (.structRef st.heap.length),
         { declarations := ainsert st.declarations ("struct " ++ n) (.structRef st.heap.length),
           anonymous_counter := st.anonymous_counter,
           structnode2type := ainsert (ainsert st.structnode2type nid (.structRef st.heap.length))
                                nid2 (.structRef st.heap.length),
           heap := st.heap ++ [.structObj "struct" n (some [some fname])
                     (some [.pointer (.structRef st.heap.length)]) (some [-1])] })
    ∧ (get_type (fuel + 3) st
        (.typeDecl dn (.structNode nid (some n)
          (some [.mk (some fname)
                   (.ptrDecl (.typeDecl none (.structNode nid2 (some n) none))) none])))
        false false none).2.heap[st.heap.length]?
      = some (.structObj "struct" n (some [some fname])
               (some [.pointer (.structRef st.heap.length)]) (some [-1])) := by
  have hc2' : alookup (ainsert st.structnode2type nid (CType.structRef st.heap.length)) nid2
      = none := by
    rw [alookup_ainsert_ne _ _ _ _ hne, hc2]
  have hself : alookup (ainsert st.declarations ("struct " ++ n) (CType.structRef st.heap.length))
      ("struct " ++ n) = some (CType.structRef st.heap.length) := alookup_ainsert_self _ _ _
  have hmain : get_type (fuel + 3) st
      (.typeDecl dn (.structNode nid (some n)
        (some [.mk (some fname)
                 (.ptrDecl (.typeDecl none (.structNode nid2 (some n) none))) none])))
      false false none
    = (.ok (.structRef st.heap.length),
       { declarations := ainsert st.declarations ("struct " ++ n) (.structRef st.heap.length),
         anonymous_counter := st.anonymous_counter,
         structnode2type := ainsert (ainsert st.structnode2type nid (.structRef st.heap.length))
                              nid2 (.structRef st.heap.length),
         heap := st.heap ++ [.structObj "struct" n (some [some fname])
                   (some [.pointer (.structRef st.heap.length)]) (some [-1])] }) := by
    simp [get_type, get_struct_or_union, struct_decls_part, fields_loop, get_type_pointer,
      declare, struct_key_eq, hc1, hc2, hc2', hdecl, hself, getq_append_length, append_set_length]
  refine ⟨hmain, ?_⟩
  rw [hmain]
  exact getq_append_length st.heap _

/-- C3, witness: `struct Node { struct Node *next; }` from the initial state. -/
theorem claim_C3_witness :
    get_type 3 init_state
        (.typeDecl none (.structNode 0 (some "Node")
          (some [.mk (some "next")
                   (.ptrDecl (.typeDecl none (.structNode 1 (some "Node") none))) none])))
        false false none
      = (.ok (.structRef 0),
         { declarations := [("struct Node", .structRef 0)],
           anonymous_counter := 0,
           structnode2type := [(0, CType.structRef 0), (1, CType.structRef 0)],
           heap := [.structObj "struct" "Node" (some [some "next"])
                     (some [.pointer (.structRef 0)]) (some [-1])] })
    ∧ (get_type 3 init_state
        (.typeDecl none (.structNode 0 (some "Node")
          (some [.mk (some "next")
                   (.ptrDecl (.typeDecl none (.structNode 1 (some "Node") none))) none])))
        false false none).2.heap[(0 : Nat)]?
      = some (.structObj "struct" "Node" (some [some "next"])
               (some [.pointer (.structRef 0)]) (some [-1])) :=
  claim_C3 0 init_state "Node" "next" 0 1 none rfl rfl rfl (by decide)

/-- C4: a qualified name is inserted at most once.  (1) `_declare` on an
already-present name fails with the duplicate-declaration `FFIError` and
leaves the state untouched; (2) across any `parse` call, an existing binding
is still present with the same value afterwards (so no insertion ever
replaces it); (3) the Enum Evaluator, which writes to the table directly,
never attempts an insertion when its key is present — it returns the cached
Type with the whole state unchanged. -/
theorem claim_C4 :
    (∀ (st : St) (k : String) (v0 obj : CType),
        alookup st.declarations k = some v0 →
        declare st k obj = (.error (.ffiError ("multiple declarations of " ++ k)), st))
    ∧ (∀ (fuel : Nat) (st : St) (ext : List ExtDecl) (k : String) (v : CType),
        alookup st.declarations k = some v →
        alookup (parse fuel st ext).2.declarations k = some v)
    ∧ (∀ (st : St) (en : Option String) (vals : Option (List EnumeratorNode)) (tp : CType),
        alookup st.declarations ("enum " ++ pyFmt en) = some tp →
        get_enum_type st en vals = (.ok tp, st)) := by
  refine ⟨?_, ?_, ?_⟩
  · intro st k v0 obj h
    unfold declare
    rw [h]
  · intro fuel st ext k v h
    exact dmono_parse fuel st ext k v h
  · intro st en vals tp h
    unfold get_enum_type
    dsimp only
    rw [h]

/-- C4, witness: each part at a concrete input. -/
theorem claim_C4_witness :
    declare { declarations := [("variable x", CType.void)], anonymous_counter := 0,
              structnode2type := [], heap := [] } "variable x" CType.void
      = (.error (.ffiError "multiple declarations of variable x"),
         { declarations := [("variable x", CType.void)], anonymous_counter := 0,
           structnode2type := [], heap := [] })
    ∧ alookup (parse 3
        { declarations := [("typedef t", CType.void)], anonymous_counter := 0,
          structnode2type := [], heap := [] }
        [ExtDecl.typedefDecl (some "__dotdotdot__")
           (.typeDecl (some "__dotdotdot__") (.identifierType ["int"])),
         ExtDecl.decl (some "z") (.typeDecl (some "z") (.identifierType ["int"]))]).2.declarations
        "typedef t" = some CType.void
    ∧ get_enum_type { declarations := [("enum E", CType.enumRef 0)], anonymous_counter := 0,
                      structnode2type := [], heap := [.enumObj (some "E") ["A"] [0]] }
        (some "E") none
      = (.ok (.enumRef 0),
         { declarations := [("enum E", CType.enumRef 0)], anonymous_counter := 0,
           structnode2type := [], heap := [.enumObj (some "E") ["A"] [0]] }) :=
  ⟨claim_C4.1 _ "variable x" CType.void CType.void rfl,
   claim_C4.2.1 3 _ _ "typedef t" CType.void rfl,
   claim_C4.2.2 _ (some "E") none (.enumRef 0) rfl⟩

/-- C5: when a tag already has its field list set, resolving another
declaration node of the same tag carrying a field list fails with the
duplicate-field-list `CDefError` (whose message always says `struct`, even
for unions), and the failed call changes neither the arena (so the existing
field names, types and bitsizes are intact) nor the Declaration Table — only
the identity cache gains the new node. -/
theorem claim_C5 (gt : GT) (st : St) (kind n : String) (nid i : Nat)
    (ds : List FieldNode) (td : Option (Option String)) (kn km : String)
    (fns : List (Option String)) (fts : Option (List CType)) (fbs : Option (List Int))
    (hcache : alookup st.structnode2type nid = none)
    (hdecl : alookup st.declarations (kind ++ " " ++ n) = some (.structRef i))
    (hheap : st.heap[i]? = some (.structObj kn km (some fns) fts fbs)) :
    get_struct_or_union gt st kind nid (some n) (some ds) td
      = (.error (.cdefError ("duplicate declaration of struct " ++ n)),
         { st with structnode2type := ainsert st.structnode2type nid (.structRef i) })
    ∧ (get_struct_or_union gt st kind nid (some n) (some ds) td).2.heap = st.heap
    ∧ (get_struct_or_union gt st kind nid (some n) (some ds) td).2.declarations
        = st.declarations := by
  have hmain : get_struct_or_union gt st kind nid (some n) (some ds) td
      = (.error (.cdefError ("duplicate declaration of struct " ++ n)),
         { st with structnode2type := ainsert st.structnode2type nid (.structRef i) }) := by
    simp [get_struct_or_union, struct_decls_part, pyFmt, hcache, hdecl, hheap]
  exact ⟨hmain, by rw [hmain], by rw [hmain]⟩

/-- C5, witness: re-declaring `struct P { int x; }` after its fields are set. -/
theorem claim_C5_witness :
    get_struct_or_union (fun s nn c f nm => get_type 1 s nn c f nm)
        { declarations := [("struct P", CType.structRef 0)], anonymous_counter := 0,
          structnode2type := [],
          heap := [.structObj "struct" "P" (some [some "x"])
                    (some [.primitive "int"]) (some [-1])] }
        "struct" 7 (some "P")
        (some [.mk (some "x") (.typeDecl (some "x") (.identifierType ["int"])) none]) none
      = (.error (.cdefError "duplicate declaration of struct P"),
         { declarations := [("struct P", CType.structRef 0)], anonymous_counter := 0,
           structnode2type := [(7, CType.structRef 0)],
           heap := [.structObj "struct" "P" (some [some "x"])
                     (some [.primitive "int"]) (some [-1])] })
    ∧ (get_struct_or_union (fun s nn c f nm => get_type 1 s nn c f nm)
        { declarations := [("struct P", CType.structRef 0)], anonymous_counter := 0,
          structnode2type := [],
          heap := [.structObj "struct" "P" (some [some "x"])
                    (some [.primitive "int"]) (some [-1])] }
        "struct" 7 (some "P")
        (some [.mk (some "x") (.typeDecl (some "x") (.identifierType ["int"])) none]) none).2.heap
      = [Obj.structObj "struct" "P" (some [some "x"]) (some [.primitive "int"]) (some [-1])]
    ∧ (get_struct_or_union (fun s nn c f nm => get_type 1 s nn c f nm)
        { declarations := [("struct P", CType.structRef 0)], anonymous_counter := 0,
          structnode2type := [],
          heap := [.structObj "struct" "P" (some [some "x"])
                    (some [.primitive "int"]) (some [-1])] }
        "struct" 7 (some "P")
        (some [.mk (some "x") (.typeDecl (some "x") (.identifierType ["int"])) none]) none).2.declarations
      = [("struct P", CType.structRef 0)] :=
  claim_C5 (fun s nn c f nm => get_type 1 s nn c f nm) _ "struct" "P" 7 0 _ none
    "struct" "P" [some "x"] (some [.primitive "int"]) (some [-1]) rfl rfl rfl

/-- C6: a struct/union field entry whose type is the reserved sentinel
identifier is recognized structurally before any bit-width or type
resolution — the error occurs for every resolver `gt`, which is therefore
never invoked on the sentinel — but the resulting failure is the *untyped*
runtime `NameError` produced by the bare name `xxxx` at line 248, not one of
the typed, structured errors, contradicting the claim's second half. -/
theorem claim_C6 :
    (∀ (gt : GT) (st : St) (fname : Option String) (fbit : Option ExprNode)
        (rest : List FieldNode),
        fields_loop gt st (.mk fname (.identifierType ["__dotdotdot__"]) fbit :: rest)
          = (.error (.nameError "name xxxx is not defined"), st))
    ∧ (get_type 5 init_state
        (.typeDecl none (.structNode 0 (some "S")
          (some [.mk none (.identifierType ["__dotdotdot__"]) none]))) false false none).1
        = .error (.nameError "name xxxx is not defined") := by
  constructor
  · intro gt st fname fbit rest
    have hj : String.join ["__dotdotdot__"] = "__dotdotdot__" := rfl
    simp [fields_loop, hj]
  · rfl

/-- C7, counterexample: an *anonymous* enum with an enumerator list IS
registered — under the literal key `"enum None"` (the Python formatting of
`None`) — and a second, different anonymous enum with a list then silently
receives the first one's cached Type, refuting the claim that an anonymous
enum is never registered or cached. -/
theorem claim_C7_counterexample :
    alookup (get_enum_type init_state none (some [⟨"A", none⟩])).2.declarations "enum None"
      = some (.enumRef 0)
    ∧ (get_enum_type (get_enum_type init_state none (some [⟨"A", none⟩])).2
        none (some [⟨"B", none⟩])).1 = .ok (.enumRef 0) :=
  ⟨rfl, rfl⟩

/-- C7, amended: the Enum Evaluator registers its result under
`enum <name>` whenever an enumerator list is present and the key is absent —
including anonymous enums, which use the literal key `"enum None"`; repeated
opaque mentions (no enumerator list) of a never-defined tag are not cached
and each allocates a fresh, distinct Enum object with empty enumerator and
value lists. -/
theorem claim_C7_amended :
    (∀ (st : St) (en : Option String) (ds : List EnumeratorNode) (vs : List Int),
        alookup st.declarations ("enum " ++ pyFmt en) = none →
        enum_values ds 0 = .ok vs →
        get_enum_type st en (some ds)
          = (.ok (.enumRef st.heap.length),
             { st with
                heap := st.heap ++ [.enumObj en (ds.map (fun e => e.name)) vs],
                declarations := ainsert st.declarations ("enum " ++ pyFmt en)
                                  (.enumRef st.heap.length) }))
    ∧ (∀ (st : St) (en : Option String),
        alookup st.declarations ("enum " ++ pyFmt en) = none →
        get_enum_type st en none
          = (.ok (.enumRef st.heap.length),
             { st with heap := st.heap ++ [.enumObj en [] []] }))
    ∧ (∀ (st : St) (en : Option String),
        alookup st.declarations ("enum " ++ pyFmt en) = none →
        (get_enum_type (get_enum_type st en none).2 en none).1
            = .ok (.enumRef (st.heap.length + 1))
        ∧ st.heap.length ≠ st.heap.length + 1) := by
  have hb : ∀ (st : St) (en : Option String),
      alookup st.declarations ("enum " ++ pyFmt en) = none →
      get_enum_type st en none
        = (.ok (.enumRef st.heap.length),
           { st with heap := st.heap ++ [.enumObj en [] []] }) := by
    intro st en h
    simp [get_enum_type, h]
  refine ⟨?_, hb, ?_⟩
  · intro st en ds vs h hv
    simp [get_enum_type, h, hv]
  · intro st en h
    rw [hb st en h]
    have h2 : alookup ({ st with heap := st.heap ++ [Obj.enumObj en [] []] } : St).declarations
        ("enum " ++ pyFmt en) = none := h
    rw [hb _ en h2]
    exact ⟨by simp, by omega⟩

/-- C7, witness: the named case evaluates the default-increment rule on
`enum Color { RED, GREEN = 5, BLUE }`, and the opaque case produces two
distinct fresh Enums. -/
theorem claim_C7_witness :
    get_enum_type init_state (some "Color")
        (some [⟨"RED", none⟩, ⟨"GREEN", some (.constant 5)⟩, ⟨"BLUE", none⟩])
      = (.ok (.enumRef 0),
         { declarations := [("enum Color", CType.enumRef 0)], anonymous_counter := 0,
           structnode2type := [],
           heap := [.enumObj (some "Color") ["RED", "GREEN", "BLUE"] [0, 5, 6]] })
    ∧ ((get_enum_type (get_enum_type init_state (some "Op") none).2 (some "Op") none).1
          = .ok (.enumRef 1)
       ∧ (0 : Nat) ≠ 1) :=
  ⟨claim_C7_amended.1 init_state (some "Color")
      [⟨"RED", none⟩, ⟨"GREEN", some (.constant 5)⟩, ⟨"BLUE", none⟩] [0, 5, 6] rfl rfl,
   claim_C7_amended.2.2 init_state (some "Op") rfl⟩

/-- C8, counterexample: the identifier list `['signed']` resolves to
`Primitive "int"`, whose canonical name is `"int"`, not `"signed int"` as the
claim states: line 133 first appends `int`, then line 135 pops the leading
`signed`. -/
theorem claim_C8_counterexample :
    (get_type 1 init_state (.typeDecl none (.identifierType ["signed"])) false false none).1
      = .ok (.primitive "int")
    ∧ CType.primitive "int" ≠ CType.primitive "signed int" := by
  refine ⟨rfl, fun h => ?_⟩
  injection h with h2
  exact absurd h2 (by decide)

/-- C8, amended: for every state with no typedef named `signed`, resolving the
single-token identifier list `['signed']` returns `Primitive "int"` (the
normalization appends `int` and then drops the redundant `signed`), leaving
the state untouched. -/
theorem claim_C8_amended (fuel : Nat) (st : St) (dn : Option String)
    (h : alookup st.declarations "typedef signed" = none) :
    get_type (fuel + 1) st (.typeDecl dn (.identifierType ["signed"])) false false none
      = (.ok (.primitive "int"), st) := by
  have hi : String.intercalate " " ["int"] = "int" := rfl
  simp [get_type, h, hi]

/-- C8, witness for the amended theorem. -/
theorem claim_C8_witness :
    get_type 1 init_state (.typeDecl none (.identifierType ["signed"])) false false none
      = (.ok (.primitive "int"), init_state) :=
  claim_C8_amended 0 init_state none rfl

/-- C9, counterexample: the array declarator with dimension `-1` (unary minus
applied to the literal 1) resolves to an Array whose recorded length is the
*negative* integer -1 — the Constant Evaluator deliberately accepts negated
literals and no non-negativity check exists. -/
theorem claim_C9_counterexample :
    (get_type 2 init_state
        (.arrayDecl (.typeDecl none (.identifierType ["int"]))
          (some (.unaryOp "-" (.constant 1)))) false false none).1
      = .ok (.array (.primitive "int") (some (-1)))
    ∧ (-1 : Int) < 0 :=
  ⟨rfl, by decide⟩

/-- C9, amended: the recorded Array length is exactly whatever integer the
Constant Evaluator returns — possibly negative, since the evaluator accepts
unary negation — and a field declared without a bit-field expression records
the in-band sentinel bitsize -1 rather than carrying no bitsize. -/
theorem claim_C9_amended :
    (∀ (fuel : Nat) (st : St) (inner : TypeNode) (d : ExprNode) (v : Int) (t : CType) (st1 : St),
        parse_constant d = .ok v →
        get_type fuel st inner false false none = (.ok t, st1) →
        get_type (fuel + 1) st (.arrayDecl inner (some d)) false false none
          = (.ok (.array t (some v)), st1))
    ∧ (∀ (gt : GT) (st : St) (fname : Option String) (dn : Option String) (ity : TypeNode)
        (t : CType) (st1 : St),
        gt st (.typeDecl dn ity) false false none = (.ok t, st1) →
        fields_loop gt st [.mk fname (.typeDecl dn ity) none]
          = (.ok ([fname], [t], [-1]), st1)) := by
  constructor
  · intro fuel st inner d v t st1 h1 h2
    simp [get_type, h1, h2]
  · intro gt st fname dn ity t st1 h
    simp [fields_loop, h]

/-- C9, witness: both parts at concrete inputs, with the negative length -1. -/
theorem claim_C9_witness :
    get_type 2 init_state
        (.arrayDecl (.typeDecl none (.identifierType ["int"]))
          (some (.unaryOp "-" (.constant 1)))) false false none
      = (.ok (.array (.primitive "int") (some (-1))), init_state)
    ∧ fields_loop (fun s nn c f nm => get_type 1 s nn c f nm) init_state
        [.mk (some "x") (.typeDecl (some "x") (.identifierType ["int"])) none]
      = (.ok ([some "x"], [.primitive "int"], [-1]), init_state) :=
  ⟨claim_C9_amended.1 1 init_state (.typeDecl none (.identifierType ["int"]))
      (.unaryOp "-" (.constant 1)) (-1) (.primitive "int") init_state rfl rfl,
   claim_C9_amended.2 (fun s nn c f nm => get_type 1 s nn c f nm) init_state (some "x")
      (some "x") (.identifierType ["int"]) (.primitive "int") init_state rfl⟩

/-- C10: an accepted `parse_type` call leaves every `variable ` and
`function ` qualified name exactly as it was, and any key it newly adds is in
one of the `struct `/`union `/`enum ` tag namespaces. -/
theorem claim_C10 (fuel : Nat) (st : St) (tnode : TypeNode) (fp : Bool) (t : CType) (st1 : St)
    (h : parse_type fuel st tnode fp = (.ok t, st1)) :
    (∀ m, alookup st1.declarations ("variable " ++ m)
        = alookup st.declarations ("variable " ++ m))
    ∧ (∀ m, alookup st1.declarations ("function " ++ m)
        = alookup st.declarations ("function " ++ m))
    ∧ (∀ k, alookup st.declarations k = none →
        ∀ v, alookup st1.declarations k = some v → TagKey k) := by
  have h2 : get_type fuel st tnode false fp none = (.ok t, st1) := h
  have htag := tag_get_type fuel st tnode false fp none
  rw [h2] at htag
  obtain ⟨hm, hn⟩ := htag
  have hside : ∀ str, ¬ TagKey str →
      alookup st1.declarations str = alookup st.declarations str := by
    intro str hnot
    cases hv : alookup st.declarations str with
    | some w => exact hm str w hv
    | none =>
      cases hv1 : alookup st1.declarations str with
      | none => rfl
      | some w => exact absurd (hn str hv w hv1) hnot
  exact ⟨fun m => hside _ (varKey_not_tagKey m), fun m => hside _ (funcKey_not_tagKey m),
         fun k hk v hv => hn k hk v hv⟩

/-- C10, witness: a bare type expression that registers a struct tag adds the
tag key, while a fixed variable key is untouched. -/
theorem claim_C10_witness :
    alookup (parse_type 2 init_state
        (.typeDecl none (.structNode 0 (some "W") none)) false).2.declarations "variable x"
      = alookup init_state.declarations "variable x"
    ∧ TagKey "struct W" :=
  ⟨(claim_C10 2 init_state (.typeDecl none (.structNode 0 (some "W") none)) false
      (.structRef 0)
      { declarations := [("struct W", CType.structRef 0)], anonymous_counter := 0,
        structnode2type := [(0, CType.structRef 0)],
        heap := [.structObj "struct" "W" none none none] } rfl).1 "x",
   (claim_C10 2 init_state (.typeDecl none (.structNode 0 (some "W") none)) false
      (.structRef 0)
      { declarations := [("struct W", CType.structRef 0)], anonymous_counter := 0,
        structnode2type := [(0, CType.structRef 0)],
        heap := [.structObj "struct" "W" none none none] } rfl).2.2 "struct W" rfl
     (.structRef 0) rfl⟩
